import Mathlib

/-!
Verification of the TemplateWeb-FastAPI repository against its specification.

Each section shallowly embeds one part of the source:
* `app/models/errors.py` — the status-to-error-code mapping;
* `app/middlewares/__init__.py` — exception handlers, request-id middleware,
  structured-logging middleware (header sanitization);
* `app/utils/logger_config.py` — the database log sink (`DatabaseHandler.emit`);
* `app/services/db.py`, `app/services/cache.py`, `app/api/health.py` — readiness;
* `app/events/startup.py`, `app/events/shutdown.py` — lifecycle ordering;
* `app/api/example/get_example.py` — demo item store and paging;
* `app/models/pagination.py` — `PageQuery`.

Python integers are embedded as `Int` (or `Nat` where the source validates
non-negativity), fallible handlers as `Except`/explicit result structures, and
module-level mutable state as explicit state passing.
-/

namespace TemplateWeb

/-! ## app/models/errors.py -/

/-- Embedding of the `ErrorCode` enum. -/
inductive ErrorCode where
  | E_NOT_FOUND
  | E_VALIDATION
  | E_AUTH_FAILED
  | E_FORBIDDEN
  | E_SERVER_ERROR
  | E_BAD_REQUEST
deriving DecidableEq, Repr

/-- Embedding of `ErrorCode.value` (the string payload of each enum member). -/
def ErrorCode.value : ErrorCode → String
  | .E_NOT_FOUND => "E_NOT_FOUND"
  | .E_VALIDATION => "E_VALIDATION"
  | .E_AUTH_FAILED => "E_AUTH_FAILED"
  | .E_FORBIDDEN => "E_FORBIDDEN"
  | .E_SERVER_ERROR => "E_SERVER_ERROR"
  | .E_BAD_REQUEST => "E_BAD_REQUEST"

/-- Embedding of `ErrorCode.from_status` (the if-chain in `app/models/errors.py`). -/
def ErrorCode.from_status (status_code : Int) : ErrorCode :=
  if status_code = 400 then .E_BAD_REQUEST
  else if status_code = 401 then .E_AUTH_FAILED
  else if status_code = 403 then .E_FORBIDDEN
  else if status_code = 404 then .E_NOT_FOUND
  else if 500 ≤ status_code ∧ status_code ≤ 599 then .E_SERVER_ERROR
  else .E_BAD_REQUEST

/-- Spec-side mapping, written from the claim wording: 400→BAD_REQUEST,
401→AUTH_FAILED, 403→FORBIDDEN, 404→NOT_FOUND, any status in 500–599→SERVER_ERROR,
every other status→BAD_REQUEST. Compared against `ErrorCode.from_status`. -/
def specStatusToCode (status_code : Int) : ErrorCode :=
  if status_code = 400 then .E_BAD_REQUEST
  else if status_code = 401 then .E_AUTH_FAILED
  else if status_code = 403 then .E_FORBIDDEN
  else if status_code = 404 then .E_NOT_FOUND
  else if 500 ≤ status_code ∧ status_code ≤ 599 then .E_SERVER_ERROR
  else .E_BAD_REQUEST

/-! ## app/middlewares/__init__.py — exception handlers -/

/-- The `detail` attribute of a `fastapi.HTTPException`: either a plain string or a
structured payload (embedded as an association list, as the handlers only use
`detail.get("message")` on dict details). -/
inductive HTTPDetail where
  | str (s : String)
  | dict (fields : List (String × String))
  | other
deriving DecidableEq, Repr

/-- A JSON error response as produced by the exception handlers: HTTP status plus the
`ErrorResponse` payload fields (`code`, `message`, `detail`), with the `request_id`
key the handlers add. `message` is an `Option` because a dict detail without a
"message" key yields Python `None`. -/
structure JSONErrorResponse where
  status_code : Int
  code : String
  message : Option String
  detail : Option HTTPDetail
  request_id : Option String
deriving DecidableEq, Repr

/-- Embedding of `_http_exception_handler`: translates an `HTTPException` with the
given status and detail into the JSON error envelope. -/
def http_exception_handler (status_code : Int) (detail : HTTPDetail)
    (request_id : Option String) : JSONErrorResponse :=
  { status_code := status_code
    code := (ErrorCode.from_status status_code).value
    message :=
      match detail with
      | .str s => some s
      | .dict fields => (fields.find? (fun p => p.1 = "message")).map Prod.snd
      | .other => some "HTTP error"
    detail :=
      match detail with
      | .str _ => none
      | d => some d
    request_id := request_id }

/-- Embedding of `_unhandled_exception_handler`: any uncaught exception (given here by
`str(exc)`, the text of the exception) becomes a 500 response whose payload is
`code=E_SERVER_ERROR`, `message="Internal server error"`, `detail=str(exc)`. -/
def unhandled_exception_handler (excText : String) (request_id : Option String) :
    JSONErrorResponse :=
  { status_code := 500
    code := ErrorCode.E_SERVER_ERROR.value
    message := some "Internal server error"
    detail := some (.str excText)
    request_id := request_id }

/-! ## app/middlewares/__init__.py — request-id middleware -/

/-- Embedding of the request-id resolution in `_request_id_middleware`:
`request.headers.get("X-Request-ID") or str(uuid.uuid4())`. The inbound header is
`none` when absent; Python `or` treats an empty string as falsy, so an empty inbound
value is replaced by the freshly generated id as well. -/
def request_id_of (inbound : Option String) (fresh : String) : String :=
  match inbound with
  | some v => if v = "" then fresh else v
  | none => fresh

/-! ## app/middlewares/__init__.py — structured logging middleware -/

/-- Lower-casing of an ASCII header name, embedding Python `str.lower()`
(character-by-character over the string's character list). -/
def strLower (s : String) : String := String.mk (s.data.map Char.toLower)

/-- The header names dropped by `_logging_middleware`; the source compares
`k.lower() not in ("authorization", "cookie", "x-api-key")`. -/
def excludedHeaderNames : List String := ["authorization", "cookie", "x-api-key"]

/-- Embedding of the sanitization comprehension in `_logging_middleware`:
keep a header pair exactly when its lower-cased name is not excluded. -/
def sanitizeHeaders (hs : List (String × String)) : List (String × String) :=
  hs.filter (fun p => ¬ excludedHeaderNames.contains (strLower p.1))

/-- Embedding of `request.headers.get(k)`: the value of the first header whose name
matches case-insensitively, if any. -/
def headerGet (hs : List (String × String)) (k : String) : Option String :=
  (hs.find? (fun p => strLower p.1 = strLower k)).map Prod.snd

/-- An inbound HTTP request as seen by the logging middleware. -/
structure RequestE where
  request_id : Option String
  method : String
  path : String
  client : Option String
  headers : List (String × String)
  path_params : List (String × String)
  query_params : List (String × String)
deriving DecidableEq, Repr

/-- The fields of the "start" log record emitted by `_logging_middleware`
(the `extra` dict of the START event together with the user-agent the message
line interpolates). -/
structure StartRecord where
  request_id : Option String
  method : String
  path : String
  path_params : List (String × String)
  query_params : List (String × String)
  headers : List (String × String)
  real_ip : Option String
  ua : Option String
deriving DecidableEq, Repr

/-- Embedding of the START event construction in `_logging_middleware`. -/
def startRecord (req : RequestE) : StartRecord :=
  { request_id := req.request_id
    method := req.method
    path := req.path
    path_params := req.path_params
    query_params := req.query_params
    headers := sanitizeHeaders req.headers
    real_ip := req.client
    ua := headerGet req.headers "user-agent" }

/-! ## app/utils/logger_config.py — DatabaseHandler (the database log sink) -/

/-- Mutable state of a `DatabaseHandler` instance: the `is_active` and
`table_created` flags set in `__init__` and flipped by `emit`. -/
structure SinkState where
  is_active : Bool
  table_created : Bool
deriving DecidableEq, Repr

/-- The `DatabaseHandler.__init__` state: inactive, table not created. -/
def SinkState.init : SinkState := { is_active := false, table_created := false }

/-- One call to `DatabaseHandler.emit`, abstracting its environment:
`guard` is whether the record trips the recursion filter at the top of `emit`;
`engine` is whether `get_db_engine()` returns a usable handle (the call obtains a
storage handle); `schema_ok` is whether the `CREATE TABLE` statement succeeds;
`insert_ok` is whether the `INSERT` statement succeeds. -/
structure EmitInput where
  guard : Bool
  engine : Bool
  schema_ok : Bool
  insert_ok : Bool
deriving DecidableEq, Repr

/-- Observable effect of one `emit` call: how many schema-creation statements and
how many insert statements were issued against the database, and whether an
exception escaped to the caller (the whole body sits in a try/except, so none can). -/
structure EmitEffect where
  schemaAttempts : Nat
  insertAttempts : Nat
  raised : Bool
deriving DecidableEq, Repr

/-- The no-op effect. -/
def EmitEffect.none : EmitEffect :=
  { schemaAttempts := 0, insertAttempts := 0, raised := false }

/-- Embedding of `DatabaseHandler.emit`. Control flow from the source: records
tripping the recursion filter return immediately; an inactive handler probes
`get_db_engine()` — on success it flips `is_active`, attempts `CREATE TABLE`
once (setting `table_created` on success) and returns without inserting, on
failure it stays inactive and drops the record; an active handler re-probes the
engine — if it is gone it flips back to inactive, otherwise it issues one
`INSERT` (a failure is swallowed by the outer except, which resets
`table_created`). -/
def DatabaseHandler.emit (i : EmitInput) (s : SinkState) : SinkState × EmitEffect :=
  if i.guard then (s, .none)
  else if ¬ s.is_active then
    if i.engine then
      ({ is_active := true, table_created := i.schema_ok },
       { schemaAttempts := 1, insertAttempts := 0, raised := false })
    else (s, .none)
  else if ¬ i.engine then
    ({ s with is_active := false }, .none)
  else if i.insert_ok then
    (s, { schemaAttempts := 0, insertAttempts := 1, raised := false })
  else
    ({ s with table_created := false },
     { schemaAttempts := 0, insertAttempts := 1, raised := false })

/-- A sequence of `emit` calls threaded through the handler state, collecting the
effect of each call. -/
def DatabaseHandler.run (s : SinkState) : List EmitInput → SinkState × List EmitEffect
  | [] => (s, [])
  | i :: rest =>
    let step := DatabaseHandler.emit i s
    let tail := DatabaseHandler.run step.1 rest
    (tail.1, step.2 :: tail.2)

/-! ### The SQL text built by `DatabaseHandler.emit`

In the source both statements are built from plain (non-f, non-concatenated)
string literals in which the text `"+settings.logs_table_name+"` appears verbatim,
so the configured table name never enters the SQL; the double quotes make
`+settings.logs_table_name+` the quoted table identifier. Whitespace is
normalized to single spaces here; the rendering of the VALUES tuple (quoting and
escaping of the record fields) is abstracted into `valuesClause`. -/

/-- Embedding of the `CREATE TABLE` statement text in `DatabaseHandler.emit`.
The parameter is the configured `settings.logs_table_name`; the source never
interpolates it. -/
def emitCreateLogTableSQL (logs_table_name : String) : String :=
  "CREATE TABLE IF NOT EXISTS \"+settings.logs_table_name+\" ( id INTEGER PRIMARY KEY AUTOINCREMENT, timestamp TEXT, level TEXT, logger TEXT, module TEXT, line INTEGER, message TEXT, component TEXT, trace_id TEXT )"

/-- Embedding of the `INSERT` statement text in `DatabaseHandler.emit` (the
`insert_sql` built by `.format`); the formatted VALUES tuple is passed in as
`valuesClause`. The `logs_table_name` parameter is again never interpolated. -/
def emitInsertLogSQL (logs_table_name : String) (valuesClause : String) : String :=
  "INSERT INTO \"+settings.logs_table_name+\" (timestamp, level, logger, module, line, message, component, trace_id) VALUES (" ++ valuesClause ++ ")"

/-- Characters of an identifier up to the closing double quote. -/
def takeUntilQuote : List Char → List Char
  | [] => []
  | c :: cs => if c = '"' then [] else c :: takeUntilQuote cs

/-- The contents of the first double-quoted region of a character list, if any. -/
def firstQuoted : List Char → Option (List Char)
  | [] => none
  | c :: cs => if c = '"' then some (takeUntilQuote cs) else firstQuoted cs

/-- The table identifier an SQL statement targets, read as the first
double-quoted identifier in the statement text. -/
def sqlQuotedTable (sql : String) : Option String :=
  (firstQuoted sql.data).map (fun cs => String.mk cs)

/-! ## app/config/settings.py, app/services/db.py, app/services/cache.py,
app/api/health.py — readiness -/

/-- The configuration fields of `Settings` that the readiness path reads.
`db_url`/`cache_url` are `none` when the environment variable is unset. -/
structure SettingsE where
  db_enabled : Bool
  db_url : Option String
  cache_enabled : Bool
  cache_url : Option String
deriving DecidableEq, Repr

/-- The external environment the init functions probe: whether importing
SQLAlchemy succeeds and `SELECT 1` on the configured engine works, and whether
importing redis succeeds and `ping()` on the configured client returns truthy. -/
structure DepEnv where
  sqlalchemy_ok : Bool
  db_connect_ok : Bool
  redis_ok : Bool
  ping_ok : Bool
deriving DecidableEq, Repr

/-- The pieces of `app.state` that `readyz` reads. `settings` is `none` when
`getattr(state, "settings", None)` finds nothing. -/
structure AppStateE where
  settings : Option SettingsE
  db_ready : Bool
  cache_ready : Bool
deriving DecidableEq, Repr

/-- Embedding of `init_db` (`app/services/db.py`): sets `app.state.db_ready`.
Python truthiness: `not settings.db_url` is true for both a missing and an empty
connection string. -/
def init_db (env : DepEnv) (st : AppStateE) : AppStateE :=
  match st.settings with
  | none => { st with db_ready := false }
  | some s =>
    if ¬ s.db_enabled then { st with db_ready := false }
    else match s.db_url with
      | none => { st with db_ready := false }
      | some u =>
        if u = "" then { st with db_ready := false }
        else if ¬ env.sqlalchemy_ok then { st with db_ready := false }
        else if env.db_connect_ok then { st with db_ready := true }
        else { st with db_ready := false }

/-- Embedding of `init_cache` (`app/services/cache.py`): sets
`app.state.cache_ready`. -/
def init_cache (env : DepEnv) (st : AppStateE) : AppStateE :=
  match st.settings with
  | none => { st with cache_ready := false }
  | some s =>
    if ¬ s.cache_enabled then { st with cache_ready := false }
    else match s.cache_url with
      | none => { st with cache_ready := false }
      | some u =>
        if u = "" then { st with cache_ready := false }
        else if ¬ env.redis_ok then { st with cache_ready := false }
        else if env.ping_ok then { st with cache_ready := true }
        else { st with cache_ready := false }

/-- Embedding of the `ready` computation in `readyz` (`app/api/health.py`):
`ready = db_ready and cache_ready if any([settings and (settings.db_enabled or
settings.cache_enabled)]) else True`. -/
def readyz (st : AppStateE) : Bool :=
  if (match st.settings with
      | some s => s.db_enabled || s.cache_enabled
      | none => false)
  then st.db_ready && st.cache_ready
  else true

/-- Spec-side readiness, written from the claim wording: ready exactly when each
dependency enabled by the configuration reports ready, a disabled dependency's
flag not affecting the result (so with nothing enabled, ready). Compared against
`readyz`. -/
def specReady (st : AppStateE) : Bool :=
  match st.settings with
  | none => true
  | some s => (!s.db_enabled || st.db_ready) && (!s.cache_enabled || st.cache_ready)

/-! ## app/events/startup.py and app/events/shutdown.py — lifecycle ordering -/

/-- The three collaborators the lifecycle manager sequences. -/
inductive Collaborator where
  | storage
  | cache
  | tracing
deriving DecidableEq, Repr

/-- The collaborator-call sequence of `startup` (`app/events/startup.py`), read
off its straight-line body: `await init_db(app)`, then `await init_cache(app)`,
then `await setup_tracing(app)`. -/
def startup_calls : List Collaborator := [.storage, .cache, .tracing]

/-- The collaborator-call sequence of `shutdown` (`app/events/shutdown.py`), read
off its straight-line body: `await close_db(app)`, then `await close_cache(app)`,
then `await shutdown_tracing(app)`. -/
def shutdown_calls : List Collaborator := [.storage, .cache, .tracing]

/-- Events observable during shutdown: a successful close or a logged close
warning for a collaborator, and the final "Application shutdown." log line. -/
inductive ShutdownEvent where
  | closedOk (c : Collaborator)
  | closeWarn (c : Collaborator)
  | appShutdown
deriving DecidableEq, Repr

/-- Per-collaborator release flags: whether the handle exists on `app.state`
(`engine` / `redis` / `tracer_provider` not `None`) and whether releasing it
raises. -/
structure CloseFlags where
  db_present : Bool
  db_fail : Bool
  cache_present : Bool
  cache_fail : Bool
  tracing_present : Bool
  tracing_fail : Bool
deriving DecidableEq, Repr

/-- Embedding of one close helper (`close_db` / `close_cache` /
`shutdown_tracing` all share this shape): skip when the handle is absent,
otherwise release inside try/except, logging a warning instead of raising. -/
def close_one (c : Collaborator) (present fail : Bool) : List ShutdownEvent :=
  if present then (if fail then [.closeWarn c] else [.closedOk c]) else []

/-- Embedding of `shutdown` (`app/events/shutdown.py`): the three closes in
source order followed by the final log line; a total function, as every close
swallows its failure. -/
def shutdown_trace (f : CloseFlags) : List ShutdownEvent :=
  close_one .storage f.db_present f.db_fail
    ++ close_one .cache f.cache_present f.cache_fail
    ++ close_one .tracing f.tracing_present f.tracing_fail
    ++ [.appShutdown]

/-! ## app/api/example/get_example.py — demo item store -/

/-- Embedding of the `Item` model. -/
structure Item where
  id : Int
  name : String
  description : Option String
deriving DecidableEq, Repr

/-- Embedding of `create_item`: reject with HTTP 400 when any stored item has the
same id, otherwise append. The error value is the HTTP status raised. -/
def create_item (items : List Item) (item : Item) : Except Int (List Item) :=
  if items.any (fun existing_item => existing_item.id = item.id) then .error 400
  else .ok (items ++ [item])

/-- Embedding of `update_item`: replace the first stored item whose id is
`item_id` by `updated_item` (stored as-is, under `updated_item.id`), or raise
HTTP 404 when no stored item has that id. -/
def update_item (items : List Item) (item_id : Int) (updated_item : Item) :
    Except Int (List Item) :=
  match items with
  | [] => .error 404
  | x :: rest =>
    if x.id = item_id then .ok (updated_item :: rest)
    else (update_item rest item_id updated_item).map (fun tail => x :: tail)

/-! ## app/models/pagination.py and the items-paged endpoint -/

/-- Embedding of `PageQuery` (the validated paging fields; the model validates
`page ≥ 1` and `1 ≤ page_size ≤ 100`, so `Nat` fields are faithful for
validated queries, with the bounds carried as hypotheses where needed). -/
structure PageQuery where
  page : Nat
  page_size : Nat
deriving DecidableEq, Repr

/-- Embedding of the `offset` property: `(self.page - 1) * self.page_size`. -/
def PageQuery.offset (q : PageQuery) : Nat := (q.page - 1) * q.page_size

/-- Embedding of the `limit` property: `self.page_size`. -/
def PageQuery.limit (q : PageQuery) : Nat := q.page_size

/-- Embedding of `PaginationMeta` (`app/models/response.py`). -/
structure PaginationMeta where
  total : Nat
  page : Nat
  page_size : Nat
  has_next : Bool
deriving DecidableEq, Repr

/-- Embedding of `PageQuery.to_meta`: `has_next = self.page * self.page_size < total`. -/
def PageQuery.to_meta (q : PageQuery) (total : Nat) : PaginationMeta :=
  { total := total
    page := q.page
    page_size := q.page_size
    has_next := decide (q.page * q.page_size < total) }

/-- A demo item of the `items_paged` endpoint (`{"id": i, "name": f"item-i"}`). -/
structure DemoItem where
  id : Nat
  name : String
deriving DecidableEq, Repr

/-- Embedding of the demo list in `items_paged`: items with ids 1..200. -/
def demoItems : List DemoItem :=
  (List.range 200).map (fun i => { id := i + 1, name := "item-" ++ toString (i + 1) })

/-- Embedding of the `items_paged` endpoint body: `total = len(items)`,
`slice_ = items[paging.offset : paging.offset + paging.limit]` (a Python slice
with a non-negative start, i.e. drop `offset` then take `limit`), returned with
`paging.to_meta(total)`. -/
def items_paged (q : PageQuery) : List DemoItem × PaginationMeta :=
  ((demoItems.drop q.offset).take q.limit, q.to_meta demoItems.length)

/-! ## Auxiliary definitions used by the statements below -/

/-- Pointwise agreement of two header pairs outside the secret headers: same
name, and same value whenever the name is not one of the excluded (secret)
headers. Two requests "differing only in the values of the excluded headers"
have `Forall₂ agreeOffSecrets` header lists. -/
def agreeOffSecrets (p q : String × String) : Prop :=
  p.1 = q.1 ∧ (excludedHeaderNames.contains (strLower p.1) = false → p.2 = q.2)

/-- A concrete request carrying an Authorization header, used to instantiate the
sanitization theorem. -/
def c8RequestA : RequestE :=
  { request_id := some "rid-1", method := "GET", path := "/example/items/",
    client := some "10.0.0.1",
    headers := [("host", "api.local"), ("authorization", "Bearer token-1"),
                ("user-agent", "curl/8.0")],
    path_params := [], query_params := [] }

/-- The same request as `c8RequestA` except for the Authorization value. -/
def c8RequestB : RequestE :=
  { request_id := some "rid-1", method := "GET", path := "/example/items/",
    client := some "10.0.0.1",
    headers := [("host", "api.local"), ("authorization", "Bearer token-2"),
                ("user-agent", "curl/8.0")],
    path_params := [], query_params := [] }

/-- Application state reached by running `init_db` then `init_cache` on a
configuration with the database disabled and a healthy, enabled cache. -/
def readyzCacheOnlyState : AppStateE :=
  init_cache
    { sqlalchemy_ok := true, db_connect_ok := true, redis_ok := true, ping_ok := true }
    (init_db
      { sqlalchemy_ok := true, db_connect_ok := true, redis_ok := true, ping_ok := true }
      { settings := some
          { db_enabled := false, db_url := none,
            cache_enabled := true, cache_url := some "redis://localhost:6379/0" }
        db_ready := false, cache_ready := false })

/-! # Theorems -/

/-! ## C1 — unhandled exceptions and the 500 envelope -/

/-- Claim C1 (code bug exhibited): an uncaught exception is translated to status
500 with code SERVER_ERROR and a fixed message, but the response body's `detail`
field carries `str(exc)` — the exception's own text — so the body does contain
text of the exception, contrary to the claim and to the spec's no-leak rule. -/
theorem unhandled_exception_leaks_exception_text :
    (unhandled_exception_handler "division by zero" none).status_code = 500 ∧
    (unhandled_exception_handler "division by zero" none).code = "E_SERVER_ERROR" ∧
    (unhandled_exception_handler "division by zero" none).message
      = some "Internal server error" ∧
    (unhandled_exception_handler "division by zero" none).detail
      = some (.str "division by zero") :=
  ⟨rfl, rfl, rfl, rfl⟩

/-! ## C2 — the database log table name -/

/-- Claim C2 (code bug exhibited): the SQL built by `DatabaseHandler.emit` is
independent of the configured `logs_table_name`, and both the CREATE and the
INSERT statement target the table whose (quoted) identifier is literally
`+settings.logs_table_name+` — the interpolation text sits inside the string
literal — rather than the configured table name. -/
theorem emit_sql_ignores_configured_table_name :
    (∀ t v, emitCreateLogTableSQL t = emitCreateLogTableSQL "logs"
      ∧ emitInsertLogSQL t v = emitInsertLogSQL "logs" v) ∧
    sqlQuotedTable (emitCreateLogTableSQL "logs") = some "+settings.logs_table_name+" ∧
    sqlQuotedTable (emitInsertLogSQL "logs" "values elided") = some "+settings.logs_table_name+" ∧
    "+settings.logs_table_name+" ≠ "logs" := by
  refine ⟨fun t v => ⟨rfl, rfl⟩, ?_, ?_, by decide⟩
  · rfl
  · rfl

/-! ## C6 — the total status-to-code mapping -/

/-- Claim C6: every envelope from the HTTP error handler carries the raised
status unchanged and a code equal to the total status-to-code mapping of that
status; the mapping sends 400 to BAD_REQUEST, 401 to AUTH_FAILED, 403 to
FORBIDDEN, 404 to NOT_FOUND, any status in 500–599 to SERVER_ERROR, and every
other status to BAD_REQUEST. -/
theorem error_envelope_code_from_status (status_code : Int) (d : HTTPDetail)
    (rid : Option String) :
    (http_exception_handler status_code d rid).status_code = status_code ∧
    (http_exception_handler status_code d rid).code
      = (ErrorCode.from_status status_code).value ∧
    ErrorCode.from_status status_code = specStatusToCode status_code ∧
    ErrorCode.from_status 400 = .E_BAD_REQUEST ∧
    ErrorCode.from_status 401 = .E_AUTH_FAILED ∧
    ErrorCode.from_status 403 = .E_FORBIDDEN ∧
    ErrorCode.from_status 404 = .E_NOT_FOUND ∧
    (500 ≤ status_code → status_code ≤ 599 →
      ErrorCode.from_status status_code = .E_SERVER_ERROR) ∧
    (status_code ≠ 400 → status_code ≠ 401 → status_code ≠ 403 → status_code ≠ 404 →
      ¬ (500 ≤ status_code ∧ status_code ≤ 599) →
      ErrorCode.from_status status_code = .E_BAD_REQUEST) := by
  refine ⟨rfl, rfl, rfl, by decide, by decide, by decide, by decide, ?_, ?_⟩
  · intro h1 h2
    have n400 : status_code ≠ 400 := by omega
    have n401 : status_code ≠ 401 := by omega
    have n403 : status_code ≠ 403 := by omega
    have n404 : status_code ≠ 404 := by omega
    simp [ErrorCode.from_status, n400, n401, n403, n404, h1, h2]
  · intro n400 n401 n403 n404 h5
    simp [ErrorCode.from_status, n400, n401, n403, n404, h5]

/-- Witness for C6 at concrete statuses 503 and 418. -/
theorem error_envelope_code_from_status_witness :
    ErrorCode.from_status 503 = .E_SERVER_ERROR ∧
    ErrorCode.from_status 418 = .E_BAD_REQUEST := by
  constructor
  · exact (error_envelope_code_from_status 503 .other none).2.2.2.2.2.2.2.1
      (by decide) (by decide)
  · exact (error_envelope_code_from_status 418 .other none).2.2.2.2.2.2.2.2
      (by decide) (by decide) (by decide) (by decide) (by decide)

/-! ## C7 — the X-Request-ID header -/

/-- Claim C7 counterexample: a request that does supply an `X-Request-ID` header
with the empty value does not get that inbound value echoed back — Python `or`
treats the empty string as absent, so a fresh id is used instead. -/
theorem request_id_empty_header_not_echoed :
    request_id_of (some "") "3fa85f64-5717-4562-b3fc-2c963f66afa6"
      = "3fa85f64-5717-4562-b3fc-2c963f66afa6" ∧
    "3fa85f64-5717-4562-b3fc-2c963f66afa6" ≠ "" := ⟨rfl, by decide⟩

/-- Claim C7 (amended): the response `X-Request-ID` equals the inbound header
when a non-empty one was supplied; when the header is absent or empty it equals
the freshly generated value, and two such requests with distinct fresh values
get distinct response ids. -/
theorem request_id_echo_or_fresh (inbound : Option String) (fresh : String) :
    (∀ v, inbound = some v → v ≠ "" → request_id_of inbound fresh = v) ∧
    ((inbound = none ∨ inbound = some "") → request_id_of inbound fresh = fresh) ∧
    (∀ (inbound2 : Option String) (fresh2 : String),
      (inbound = none ∨ inbound = some "") → (inbound2 = none ∨ inbound2 = some "") →
      fresh ≠ fresh2 →
      request_id_of inbound fresh ≠ request_id_of inbound2 fresh2) := by
  refine ⟨?_, ?_, ?_⟩
  · rintro v rfl hv
    simp [request_id_of, hv]
  · rintro (rfl | rfl) <;> simp [request_id_of]
  · rintro inbound2 fresh2 (rfl | rfl) (rfl | rfl) hne <;> simpa [request_id_of] using hne

/-- Witness for C7 (amended) at concrete requests. -/
theorem request_id_echo_or_fresh_witness :
    request_id_of (some "abc") "f1" = "abc" ∧
    request_id_of none "f1" = "f1" ∧
    request_id_of none "f1" ≠ request_id_of (some "") "f2" := by
  refine ⟨?_, ?_, ?_⟩
  · exact (request_id_echo_or_fresh (some "abc") "f1").1 "abc" rfl (by decide)
  · exact (request_id_echo_or_fresh none "f1").2.1 (Or.inl rfl)
  · exact (request_id_echo_or_fresh none "f1").2.2 (some "") "f2"
      (Or.inl rfl) (Or.inr rfl) (by decide)

/-! ## C9 — id uniqueness is not an invariant of the demo item store -/

/-- Claim C9: `create_item` rejects any item whose id is already stored with
HTTP 400, yet `update_item` stores the updated item under its own id even when
that differs from the path id, so a sequence of successful create and update
calls leaves two stored items with the same id. -/
theorem item_store_id_uniqueness_broken :
    (∀ (items : List Item) (item : Item),
      (∃ e ∈ items, e.id = item.id) → create_item items item = .error 400) ∧
    create_item [] ⟨1, "a", none⟩ = .ok [⟨1, "a", none⟩] ∧
    create_item [⟨1, "a", none⟩] ⟨2, "b", none⟩
      = .ok [⟨1, "a", none⟩, ⟨2, "b", none⟩] ∧
    update_item [⟨1, "a", none⟩, ⟨2, "b", none⟩] 2 ⟨1, "c", none⟩
      = .ok [⟨1, "a", none⟩, ⟨1, "c", none⟩] ∧
    ([⟨1, "a", none⟩, ⟨1, "c", none⟩] : List Item).map Item.id = [1, 1] ∧
    (([⟨1, "a", none⟩, ⟨1, "c", none⟩] : List Item).countP (fun e => e.id == 1)) = 2 := by
  refine ⟨?_, rfl, rfl, rfl, rfl, rfl⟩
  intro items item h
  obtain ⟨e, he, heq⟩ := h
  have hany : items.any (fun existing_item => existing_item.id = item.id) = true := by
    simp only [List.any_eq_true, decide_eq_true_eq]
    exact ⟨e, he, heq⟩
  simp [create_item, hany]

/-- Witness for C9: a duplicate-id create is refused with 400. -/
theorem item_store_id_uniqueness_broken_witness :
    create_item [⟨1, "a", none⟩] ⟨1, "z", none⟩ = .error 400 :=
  item_store_id_uniqueness_broken.1 [⟨1, "a", none⟩] ⟨1, "z", none⟩
    ⟨⟨1, "a", none⟩, by simp⟩

/-! ## C4 — lifecycle ordering -/

/-- Claim C4 counterexample: `shutdown` releases the collaborators in the same
order as `startup` initializes them (storage, cache, tracing), not in the
reverse order the claim states. -/
theorem shutdown_not_reverse_of_startup :
    shutdown_calls = startup_calls ∧
    shutdown_calls ≠ startup_calls.reverse := by decide

/-- Claim C4 (amended): startup initializes storage, then cache, then tracing;
shutdown releases them in that same order (not reversed); and every release
failure produces a logged warning while shutdown still runs to completion
(the trace always ends with the final shutdown log line). -/
theorem lifecycle_order_and_tolerant_shutdown :
    startup_calls = [.storage, .cache, .tracing] ∧
    shutdown_calls = startup_calls ∧
    (∀ f : CloseFlags, (shutdown_trace f).getLast? = some .appShutdown) ∧
    (∀ f : CloseFlags,
      (f.db_present = true → f.db_fail = true →
        ShutdownEvent.closeWarn .storage ∈ shutdown_trace f) ∧
      (f.cache_present = true → f.cache_fail = true →
        ShutdownEvent.closeWarn .cache ∈ shutdown_trace f) ∧
      (f.tracing_present = true → f.tracing_fail = true →
        ShutdownEvent.closeWarn .tracing ∈ shutdown_trace f)) := by
  refine ⟨rfl, rfl, ?_, ?_⟩
  · rintro ⟨p1, f1, p2, f2, p3, f3⟩
    cases p1 <;> cases f1 <;> cases p2 <;> cases f2 <;> cases p3 <;> cases f3 <;> rfl
  · intro f
    refine ⟨?_, ?_, ?_⟩ <;> intro hp hf <;> simp [shutdown_trace, close_one, hp, hf]

/-- Witness for C4 (amended): a shutdown where every release fails still logs
all three warnings and reaches the final log line. -/
theorem lifecycle_order_and_tolerant_shutdown_witness :
    (shutdown_trace ⟨true, true, true, true, true, true⟩).getLast?
      = some .appShutdown ∧
    ShutdownEvent.closeWarn .storage ∈ shutdown_trace ⟨true, true, true, true, true, true⟩ ∧
    ShutdownEvent.closeWarn .tracing ∈ shutdown_trace ⟨true, true, true, true, true, true⟩ := by
  refine ⟨?_, ?_, ?_⟩
  · exact lifecycle_order_and_tolerant_shutdown.2.2.1 ⟨true, true, true, true, true, true⟩
  · exact (lifecycle_order_and_tolerant_shutdown.2.2.2
      ⟨true, true, true, true, true, true⟩).1 rfl rfl
  · exact (lifecycle_order_and_tolerant_shutdown.2.2.2
      ⟨true, true, true, true, true, true⟩).2.2 rfl rfl

/-! ## C3 — readiness -/

/-- Helper: `init_cache` writes only `cache_ready`, leaving the settings and the
storage-readiness flag untouched. -/
theorem init_cache_preserves (env : DepEnv) (st : AppStateE) :
    (init_cache env st).settings = st.settings ∧
    (init_cache env st).db_ready = st.db_ready := by
  unfold init_cache
  repeat' split
  all_goals exact ⟨rfl, rfl⟩

/-- Claim C3 counterexample: with the database disabled and a healthy, enabled
cache, the actual `readyz` reports not ready (it conjoins both readiness flags
whenever any dependency is enabled), while the claimed readiness — each enabled
dependency ready, disabled dependencies ignored — holds of the same state. -/
theorem readyz_counts_disabled_dependency :
    readyz readyzCacheOnlyState = false ∧ specReady readyzCacheOnlyState = true := by
  constructor <;> rfl

/-- Claim C3 (amended): `readyz` reports ready exactly when no dependency is
enabled or both the storage and the cache readiness flags are set — so a
disabled dependency's flag does affect the result; with no settings or no
dependency enabled ready is true, and when the database is enabled with a
missing connection string, the state left by the init sequence yields
ready false. -/
theorem readyz_amended (st : AppStateE) (env : DepEnv) (s : SettingsE) :
    (readyz st = true ↔
      ((match st.settings with
        | some s2 => s2.db_enabled || s2.cache_enabled
        | none => false) = false ∨ (st.db_ready = true ∧ st.cache_ready = true))) ∧
    (st.settings = none → readyz st = true) ∧
    (st.settings = some s → s.db_enabled = false → s.cache_enabled = false →
      readyz st = true) ∧
    (st.settings = some s → s.db_enabled = true → s.db_url = none →
      readyz (init_cache env (init_db env st)) = false) := by
  refine ⟨?_, ?_, ?_, ?_⟩
  · rcases st with ⟨sett, dbr, cr⟩
    cases sett with
    | none => simp [readyz]
    | some s2 =>
      cases h : s2.db_enabled || s2.cache_enabled <;> simp [readyz, h]
  · intro h
    simp [readyz, h]
  · intro h h1 h2
    simp [readyz, h, h1, h2]
  · intro h h1 h2
    have hinit : init_db env st = { st with db_ready := false } := by
      simp [init_db, h, h1, h2]
    rw [hinit]
    obtain ⟨hs, hd⟩ := init_cache_preserves env { st with db_ready := false }
    simp only [readyz, hs, hd]
    simp [h, h1]

/-- Witness for C3 (amended): no settings gives ready, and a db-enabled
configuration with no connection string ends up not ready after init. -/
theorem readyz_amended_witness :
    readyz { settings := none, db_ready := false, cache_ready := false } = true ∧
    readyz (init_cache ⟨true, true, true, true⟩ (init_db ⟨true, true, true, true⟩
      { settings := some ⟨true, none, false, none⟩,
        db_ready := false, cache_ready := false })) = false := by
  constructor
  · exact (readyz_amended { settings := none, db_ready := false, cache_ready := false }
      ⟨true, true, true, true⟩ ⟨false, none, false, none⟩).2.1 rfl
  · exact (readyz_amended
      { settings := some ⟨true, none, false, none⟩,
        db_ready := false, cache_ready := false }
      ⟨true, true, true, true⟩ ⟨true, none, false, none⟩).2.2.2 rfl rfl rfl

/-! ## C5 — lazy activation of the database sink -/

/-- Helper: an `emit` call that obtains no storage handle has the empty effect. -/
theorem emit_no_engine (i : EmitInput) (s : SinkState) (h : i.engine = false) :
    (DatabaseHandler.emit i s).2 = EmitEffect.none := by
  rcases hg : i.guard <;> rcases ha : s.is_active <;>
    simp [DatabaseHandler.emit, hg, ha, h]

/-- Claim C5: over any sequence of `emit` calls, (1) while no storage handle is
obtainable every call issues no schema statement, no insert, and raises nothing;
(2) a call on an inactive handler that obtains a handle (and passes the
recursion filter) issues exactly one schema-creation statement, no insert, and
activates the handler; (3) any call made while the handler is active issues no
schema statement; (4) no call ever raises to the caller. -/
theorem database_sink_lazy_activation :
    (∀ (inputs : List EmitInput) (s0 : SinkState),
      (∀ i ∈ inputs, i.engine = false) →
      ∀ e ∈ (DatabaseHandler.run s0 inputs).2,
        e.schemaAttempts = 0 ∧ e.insertAttempts = 0 ∧ e.raised = false) ∧
    (∀ (i : EmitInput) (s : SinkState),
      s.is_active = false → i.guard = false → i.engine = true →
      (DatabaseHandler.emit i s).2.schemaAttempts = 1 ∧
      (DatabaseHandler.emit i s).2.insertAttempts = 0 ∧
      (DatabaseHandler.emit i s).1.is_active = true) ∧
    (∀ (i : EmitInput) (s : SinkState), s.is_active = true →
      (DatabaseHandler.emit i s).2.schemaAttempts = 0) ∧
    (∀ (i : EmitInput) (s : SinkState),
      (DatabaseHandler.emit i s).2.raised = false) := by
  refine ⟨?_, ?_, ?_, ?_⟩
  · intro inputs
    induction inputs with
    | nil =>
      intro s0 _ e he
      simp [DatabaseHandler.run] at he
    | cons i rest ih =>
      intro s0 h e he
      simp only [DatabaseHandler.run, List.mem_cons] at he
      rcases he with he | he
      · rw [emit_no_engine i s0 (h i (List.mem_cons_self i rest))] at he
        subst he
        exact ⟨rfl, rfl, rfl⟩
      · exact ih (DatabaseHandler.emit i s0).1
          (fun j hj => h j (List.mem_cons_of_mem i hj)) e he
  · intro i s h1 h2 h3
    refine ⟨?_, ?_, ?_⟩ <;> simp [DatabaseHandler.emit, h1, h2, h3]
  · intro i s h
    rcases hg : i.guard <;> rcases he : i.engine <;> rcases ho : i.insert_ok <;>
      simp [DatabaseHandler.emit, EmitEffect.none, h, hg, he, ho]
  · intro i s
    rcases hg : i.guard <;> rcases ha : s.is_active <;> rcases he : i.engine <;>
      rcases ho : i.insert_ok <;>
        simp [DatabaseHandler.emit, EmitEffect.none, hg, ha, he, ho]

/-- Witness for C5 at a concrete call sequence and concrete states. -/
theorem database_sink_lazy_activation_witness :
    (EmitEffect.none.schemaAttempts = 0 ∧ EmitEffect.none.insertAttempts = 0 ∧
      EmitEffect.none.raised = false) ∧
    (DatabaseHandler.emit ⟨false, true, true, true⟩ SinkState.init).2.schemaAttempts = 1 ∧
    (DatabaseHandler.emit ⟨false, true, true, true⟩
      { is_active := true, table_created := true }).2.schemaAttempts = 0 := by
  refine ⟨?_, ?_, ?_⟩
  · exact database_sink_lazy_activation.1 [⟨false, false, false, false⟩] SinkState.init
      (by decide) EmitEffect.none (by decide)
  · exact (database_sink_lazy_activation.2.1 ⟨false, true, true, true⟩
      SinkState.init rfl rfl rfl).1
  · exact database_sink_lazy_activation.2.2.1 ⟨false, true, true, true⟩
      { is_active := true, table_created := true } rfl

/-! ## C8 — header sanitization of the start log record -/

/-- Helper: sanitization is determined by the non-secret part of the headers. -/
theorem sanitizeHeaders_congr {h1 h2 : List (String × String)}
    (h : List.Forall₂ agreeOffSecrets h1 h2) :
    sanitizeHeaders h1 = sanitizeHeaders h2 := by
  induction h with
  | nil => rfl
  | @cons a b l1 l2 hab _ ih =>
    obtain ⟨hk, hv⟩ := hab
    simp only [sanitizeHeaders] at ih ⊢
    rcases hc : excludedHeaderNames.contains (strLower b.1) with _ | _
    · have hval : a.2 = b.2 := hv (by rw [hk]; exact hc)
      have hab2 : a = b := by
        obtain ⟨a1, a2⟩ := a
        obtain ⟨b1, b2⟩ := b
        simp only at hk hval
        rw [hk, hval]
      rw [hab2]
      simp only [List.filter_cons]
      rw [ih]
    · have haC : excludedHeaderNames.contains (strLower a.1) = true := by
        rw [hk]; exact hc
      simp only [List.filter_cons]
      rw [if_neg (by simpa using haC), if_neg (by simpa using hc)]
      exact ih

/-- Helper: looking up a non-secret header name gives the same value on two
header lists agreeing outside the secret headers. -/
theorem headerGet_congr {h1 h2 : List (String × String)} (k : String)
    (hk : excludedHeaderNames.contains (strLower k) = false)
    (h : List.Forall₂ agreeOffSecrets h1 h2) :
    headerGet h1 k = headerGet h2 k := by
  induction h with
  | nil => rfl
  | @cons a b l1 l2 hab _ ih =>
    obtain ⟨hk1, hv⟩ := hab
    by_cases hm : strLower a.1 = strLower k
    · have hmb : strLower b.1 = strLower k := by rw [← hk1]; exact hm
      have hcf : excludedHeaderNames.contains (strLower a.1) = false := by
        rw [hm]; exact hk
      have hval : a.2 = b.2 := hv hcf
      unfold headerGet
      rw [List.find?_cons_of_pos _ (by simpa using hm),
        List.find?_cons_of_pos _ (by simpa using hmb)]
      simp [hval]
    · have hmb : ¬ strLower b.1 = strLower k := by rw [← hk1]; exact hm
      unfold headerGet at ih ⊢
      rw [List.find?_cons_of_neg _ (by simpa using hm),
        List.find?_cons_of_neg _ (by simpa using hmb)]
      exact ih

/-- Claim C8: the start record's headers are exactly the request headers with the
Authorization, Cookie and API-key headers removed (case-insensitively), and two
requests that differ only in the values of those excluded headers produce
identical start records. -/
theorem start_record_excludes_secret_headers
    (req r1 r2 : RequestE) (p : String × String) :
    (p ∈ (startRecord req).headers ↔
      p ∈ req.headers ∧ strLower p.1 ∉ excludedHeaderNames) ∧
    (r1.request_id = r2.request_id → r1.method = r2.method → r1.path = r2.path →
      r1.client = r2.client → r1.path_params = r2.path_params →
      r1.query_params = r2.query_params →
      List.Forall₂ agreeOffSecrets r1.headers r2.headers →
      startRecord r1 = startRecord r2) := by
  constructor
  · simp [startRecord, sanitizeHeaders, List.mem_filter]
  · intro e1 e2 e3 e4 e5 e6 hh
    unfold startRecord
    rw [e1, e2, e3, e4, e5, e6, sanitizeHeaders_congr hh,
      headerGet_congr "user-agent" (by decide) hh]

/-- Witness for C8: two concrete requests differing only in the Authorization
value have equal start records, and the kept header is exactly the non-secret
one. -/
theorem start_record_excludes_secret_headers_witness :
    startRecord c8RequestA = startRecord c8RequestB ∧
    ("host", "api.local") ∈ (startRecord c8RequestA).headers := by
  constructor
  · exact (start_record_excludes_secret_headers c8RequestA c8RequestA c8RequestB
      ("host", "api.local")).2 rfl rfl rfl rfl rfl rfl
      (List.Forall₂.cons ⟨rfl, fun _ => rfl⟩
        (List.Forall₂.cons ⟨rfl, fun hfalse => absurd hfalse (by decide)⟩
          (List.Forall₂.cons ⟨rfl, fun _ => rfl⟩ List.Forall₂.nil)))
  · exact (start_record_excludes_secret_headers c8RequestA c8RequestA c8RequestB
      ("host", "api.local")).1.mpr ⟨by decide, by decide⟩

/-! ## C10 — pagination -/

/-- Claim C10: for a validated `PageQuery` the offset is `(page − 1) · page_size`,
the limit is `page_size`, `to_meta total` sets `has_next` exactly when
`page · page_size < total` (equivalently, when the offset plus the page size is
still short of the total), and the items-paged endpoint returns the slice of the
demo item list from the offset to offset + page_size — whose length is
`min page_size (200 − offset)` and whose j-th element has id `offset + j + 1`. -/
theorem page_query_paging (q : PageQuery) (total : Nat)
    (hp : 1 ≤ q.page) (hs1 : 1 ≤ q.page_size) (hs2 : q.page_size ≤ 100) :
    q.offset = (q.page - 1) * q.page_size ∧
    q.limit = q.page_size ∧
    ((q.to_meta total).has_next = true ↔ q.page * q.page_size < total) ∧
    ((q.to_meta total).has_next = true ↔ q.offset + q.page_size < total) ∧
    (items_paged q).1 = (demoItems.drop q.offset).take q.page_size ∧
    (items_paged q).2 = q.to_meta 200 ∧
    (items_paged q).1.length = min q.page_size (200 - q.offset) ∧
    (∀ (j : Nat) (h : j < (items_paged q).1.length),
      (items_paged q).1[j].id = q.offset + j + 1) := by
  have hlen : demoItems.length = 200 := by
    simp [demoItems]
  have key : q.offset + q.page_size = q.page * q.page_size := by
    obtain ⟨m, hm⟩ : ∃ m, q.page = m + 1 := ⟨q.page - 1, by omega⟩
    simp [PageQuery.offset, hm, Nat.succ_mul]
  refine ⟨rfl, rfl, ?_, ?_, rfl, ?_, ?_, ?_⟩
  · simp [PageQuery.to_meta]
  · simp [PageQuery.to_meta, ← key]
  · simp [items_paged, hlen]
  · simp [items_paged, List.length_take, List.length_drop, hlen, PageQuery.limit]
  · intro j h
    simp only [items_paged] at h ⊢
    simp only [List.getElem_take, List.getElem_drop]
    simp [demoItems, List.getElem_map, List.getElem_range]

/-- Witness for C10 at the concrete query page 2, page size 30, total 100. -/
theorem page_query_paging_witness :
    (⟨2, 30⟩ : PageQuery).offset = (2 - 1) * 30 ∧
    (((⟨2, 30⟩ : PageQuery).to_meta 100).has_next = true ↔ 2 * 30 < 100) ∧
    (items_paged ⟨2, 30⟩).1.length
      = min 30 (200 - (⟨2, 30⟩ : PageQuery).offset) := by
  have h := page_query_paging ⟨2, 30⟩ 100 (by decide) (by decide) (by decide)
  exact ⟨h.1, h.2.2.1, h.2.2.2.2.2.2.1⟩

end TemplateWeb
